import Mathlib

/-!
# canal configuration (`canal/config.go`)

Shallow embedding of the configuration schema, of the two loaders
(`NewConfigWithFile`, `NewConfig`) and of the default factory
(`NewDefaultConfig`).

The third-party packages the file calls into are not part of the program and
are taken as parameters:

* `math/rand`  : a record `Rand σ` (`σ` is the state of a random source),
* `time`       : the observed clock is a field of the `World`,
* `toml`       : a `Decoder`, the effect of `toml.Decode(data, &c)` on `c`,
* `io/ioutil`  : a `FileReader`, the outcome of `ioutil.ReadFile(name)`,
* `mysql.DEFAULT_CHARSET` : a `String` parameter.

`errors.Trace` (annotate a non-nil error with a stack trace, keep `nil`) is the
one library function given a concrete reading, as the `Error.trace` wrapper.

Go types are rendered as follows: `string` is `String`; `[]string` is
`List String` (the nil slice and the empty slice are both `[]`); `uint32` is a
`Nat` reduced modulo `2 ^ 32` where arithmetic happens; `int`, `int64` and
`time.Duration` are `Int`; a pointer that may be nil is an `Option`; the pair
`(*Config, error)` is `Option Config × Option Error`.
-/

namespace canal

/-! ## Data model (config.go, lines 13-88) -/

/-- Target of the `*time.Location` pointer held by `Config`. -/
structure Location where
  name : String
deriving DecidableEq, Repr

/-- Go struct `DumpConfig` (config.go, lines 13-51). -/
structure DumpConfig where
  ExecutionPath : String
  Tables : List String
  TableDB : String
  Databases : List String
  IgnoreTables : List String
  Where : String
  DiscardErr : Bool
  SkipMasterData : Bool
  GtidPurged : String
  MaxAllowedPacketMB : Int
  Protocol : String
  ExtraOptions : List String
deriving DecidableEq, Repr

/-- Go struct `Config` (config.go, lines 53-88). -/
structure Config where
  Addr : String
  User : String
  Password : String
  Charset : String
  ServerID : Nat
  Flavor : String
  HeartbeatPeriod : Int
  ReadTimeout : Int
  IncludeTableRegex : List String
  ExcludeTableRegex : List String
  DiscardNoMetaRowEvent : Bool
  Dump : DumpConfig
  UseDecimal : Bool
  ParseTime : Bool
  TimestampStringLocation : Option Location
  SemiSyncEnabled : Bool
  MaxReconnectAttempts : Int
deriving DecidableEq, Repr

/-- Zero value of `DumpConfig`. -/
def DumpConfig.zero : DumpConfig where
  ExecutionPath := ""
  Tables := []
  TableDB := ""
  Databases := []
  IgnoreTables := []
  Where := ""
  DiscardErr := false
  SkipMasterData := false
  GtidPurged := ""
  MaxAllowedPacketMB := 0
  Protocol := ""
  ExtraOptions := []

/-- Zero value of `Config`: what `var c Config` and `new(Config)` hold. -/
def Config.zero : Config where
  Addr := ""
  User := ""
  Password := ""
  Charset := ""
  ServerID := 0
  Flavor := ""
  HeartbeatPeriod := 0
  ReadTimeout := 0
  IncludeTableRegex := []
  ExcludeTableRegex := []
  DiscardNoMetaRowEvent := false
  Dump := DumpConfig.zero
  UseDecimal := false
  ParseTime := false
  TimestampStringLocation := none
  SemiSyncEnabled := false
  MaxReconnectAttempts := 0

/-! ## Environment: clock and random sources -/

/-- Wall-clock instant as `time.Now()` reports it: whole seconds since the Unix
epoch and the nanoseconds within that second. -/
structure Time where
  sec : Int
  nsec : Nat
deriving DecidableEq, Repr

/-- Go `t.Unix()`: the instant truncated to whole seconds. -/
def Time.Unix (t : Time) : Int := t.sec

/-- The part of `math/rand` that `NewDefaultConfig` calls. `NewSource seed` is
the state of the generator `rand.New(rand.NewSource(seed))`; `Intn r n` is the
value `r.Intn(n)` returns together with the state of `r` afterwards. -/
structure Rand (σ : Type) where
  NewSource : Int → σ
  Intn : σ → Int → Int × σ

/-- Documented contract of `Intn`: for `n > 0` the value lies in `[0, n)`. -/
def Rand.IntnInRange {σ : Type} (rand : Rand σ) : Prop :=
  ∀ (r : σ) (n : Int), 0 < n → 0 ≤ (rand.Intn r n).1 ∧ (rand.Intn r n).1 < n

/-- Process state visible to `NewDefaultConfig`: the clock reading that
`time.Now()` observes and the state of the package-level (shared) random
source of `math/rand`. -/
structure World (σ : Type) where
  now : Time
  globalRand : σ

/-- Go conversion `uint32(x)` of a signed integer: reduction modulo `2 ^ 32`. -/
def uint32 (x : Int) : Nat := (x % 2 ^ 32).toNat

/-! ## NewDefaultConfig (config.go, lines 110-129) -/

/-- Go `NewDefaultConfig`. The generator is created by the call itself from
the clock reading; the world is handed back as it was received. -/
def NewDefaultConfig {σ : Type} (rand : Rand σ) (DEFAULT_CHARSET : String)
    (w : World σ) : Config × World σ :=
  let c := Config.zero
  let c := { c with Addr := "127.0.0.1:3306" }
  let c := { c with User := "root" }
  let c := { c with Password := "" }
  let c := { c with Charset := DEFAULT_CHARSET }
  let r := rand.NewSource w.now.Unix
  let c := { c with ServerID := (uint32 (rand.Intn r 1000).1 + 1001) % 2 ^ 32 }
  let c := { c with Flavor := "mysql" }
  let c := { c with Dump := { c.Dump with ExecutionPath := "mysqldump" } }
  let c := { c with Dump := { c.Dump with DiscardErr := true } }
  let c := { c with Dump := { c.Dump with SkipMasterData := false } }
  let c := { c with Dump := { c.Dump with GtidPurged := "none" } }
  (c, w)

/-! ## Errors -/

/-- Non-nil error value returned by `ioutil.ReadFile`. -/
structure ReadError where
  msg : String
deriving DecidableEq, Repr

/-- Non-nil error value returned by `toml.Decode`. -/
structure DecodeError where
  msg : String
deriving DecidableEq, Repr

/-- Non-nil Go `error` values that the loaders can return. -/
inductive Error where
  | read (e : ReadError)
  | decode (e : DecodeError)
  | trace (inner : Error)
deriving DecidableEq, Repr

/-- Go `errors.Trace`: nil stays nil, a non-nil error is wrapped. -/
def errors.Trace : Option Error → Option Error
  | none => none
  | some e => some (Error.trace e)

/-- Go `errors.Cause`: the error at the bottom of the wrapping chain. -/
def errors.Cause : Error → Error
  | Error.trace e => errors.Cause e
  | e => e

/-- The underlying cause is an error of `ioutil.ReadFile`. -/
def Error.IsReadFailure (e : Error) : Bool :=
  match errors.Cause e with
  | Error.read _ => true
  | _ => false

/-- The underlying cause is an error of `toml.Decode`. -/
def Error.IsDecodeFailure (e : Error) : Bool :=
  match errors.Cause e with
  | Error.decode _ => true
  | _ => false

/-! ## Loaders (config.go, lines 90-108) -/

/-- Effect of `toml.Decode(data, &c)`: the contents of `c` when the call
returns (fields may have been written also when it fails) and its error. -/
abbrev Decoder := String → Config → Config × Option DecodeError

/-- Contents of a Go `[]byte`, carried as the text it holds. -/
abbrev ByteSlice := String

/-- Go conversion `string(data)`: the same bytes. -/
def string (data : ByteSlice) : String := data

/-- Outcome of `ioutil.ReadFile(name)`. -/
abbrev FileReader := String → Except ReadError ByteSlice

/-- Go `NewConfig`. -/
def NewConfig (Decode : Decoder) (data : String) : Option Config × Option Error :=
  let c := Config.zero
  match Decode data c with
  | (_, some err) => (none, errors.Trace (some (Error.decode err)))
  | (c, none) => (some c, none)

/-- Go `NewConfigWithFile`. -/
def NewConfigWithFile (ReadFile : FileReader) (Decode : Decoder) (name : String) :
    Option Config × Option Error :=
  match ReadFile name with
  | Except.error err => (none, errors.Trace (some (Error.read err)))
  | Except.ok data => NewConfig Decode (string data)

/-! ## Sample environment

Concrete instances of the parameters, used to evaluate the definitions. -/

/-- A small random-number package over `Nat` states: a source starts at the
seed reduced modulo `2 ^ 63`, a draw is the state modulo `n` and the state
advances by a linear congruential step. -/
def sampleRand : Rand Nat where
  NewSource := fun seed => (seed % 2 ^ 63).toNat
  Intn := fun r n => ((r : Int) % n, (r * 6364136223846793005 + 1442695040888963407) % 2 ^ 64)

/-- A world in which the clock reads 1700000000 s and 5 ns. -/
def sampleWorld : World Nat where
  now := { sec := 1700000000, nsec := 5 }
  globalRand := 42

/-- A second world: the same clock second as `sampleWorld`, later within that
second, and a different state of the shared random source. -/
def sampleWorldLater : World Nat where
  now := { sec := 1700000000, nsec := 999999999 }
  globalRand := 7

/-- An invocation `f` touches the shared random source when, for some world,
it leaves the shared state changed or its result depends on that state. -/
def TouchesGlobalRand {σ : Type} (f : World σ → Config × World σ) : Prop :=
  ∃ w : World σ, (f w).2.globalRand ≠ w.globalRand ∨
    ∃ g : σ, (f { w with globalRand := g }).1 ≠ (f w).1

/-- What `toml.Decode` does on the documents used as worked examples below:
the empty document, a document with the single key `addr`, a document whose
`dump` table sets both `tables` and `dbs`, and a document whose `server_id`
is a string (the `addr` line decoded before the mismatch is met). Texts
outside this table are not covered and are reported as errors. -/
def sampleDecode : Decoder := fun data c =>
  if data = "" then (c, none)
  else if data = "addr = \"10.0.0.5:3306\"" then
    ({ c with Addr := "10.0.0.5:3306" }, none)
  else if data = "[dump]\ntables = [\"t1\"]\ndbs = [\"d1\"]" then
    ({ c with Dump := { c.Dump with Tables := ["t1"], Databases := ["d1"] } }, none)
  else if data = "addr = \"db:3306\"\nserver_id = \"abc\"" then
    ({ c with Addr := "db:3306" }, some { msg := "type mismatch for server_id" })
  else (c, some { msg := "document not in the table" })

/-- A file system with three readable files and nothing else. -/
def sampleReadFile : FileReader := fun name =>
  if name = "/etc/canal/river.toml" then Except.ok "addr = \"10.0.0.5:3306\""
  else if name = "/etc/canal/both.toml" then Except.ok "[dump]\ntables = [\"t1\"]\ndbs = [\"d1\"]"
  else if name = "/etc/canal/bad.toml" then Except.ok "addr = \"db:3306\"\nserver_id = \"abc\""
  else Except.error { msg := "open " ++ name ++ ": no such file or directory" }

/-! ## Properties of NewDefaultConfig -/

theorem sampleRand_IntnInRange : sampleRand.IntnInRange := by
  intro r n hn
  exact ⟨Int.emod_nonneg _ (ne_of_gt hn), Int.emod_lt_of_pos _ hn⟩

theorem uint32_of_small (d : Int) (h0 : 0 ≤ d) (h1 : d < 1000) :
    ((uint32 d : Nat) : Int) = d := by
  unfold uint32
  have h2 : d % 2 ^ 32 = d := Int.emod_eq_of_lt h0 (by omega)
  rw [h2]
  exact Int.toNat_of_nonneg h0

theorem ServerID_of_draw {σ : Type} (rand : Rand σ) (cs : String) (w : World σ) :
    (NewDefaultConfig rand cs w).1.ServerID =
      (uint32 (rand.Intn (rand.NewSource w.now.Unix) 1000).1 + 1001) % 2 ^ 32 := rfl

/-- C1: when `Intn` honours its contract, for every clock reading the ServerID
of the default Config is `1001 + d` for the draw `d`, with `0 ≤ d < 1000`, hence
`1001 ≤ ServerID < 2001` and `ServerID > 0`; neither the `uint32` conversion
nor the addition wraps modulo `2 ^ 32`. -/
theorem NewDefaultConfig_ServerID_range {σ : Type} (rand : Rand σ) (cs : String)
    (w : World σ) (h : rand.IntnInRange) :
    let d := (rand.Intn (rand.NewSource w.now.Unix) 1000).1
    let c := (NewDefaultConfig rand cs w).1
    (0 ≤ d ∧ d < 1000) ∧ (c.ServerID : Int) = 1001 + d ∧
      (uint32 d : Int) = d ∧ uint32 d + 1001 < 2 ^ 32 ∧
      1001 ≤ c.ServerID ∧ c.ServerID < 2001 ∧ 0 < c.ServerID := by
  intro d c
  have hd : 0 ≤ d ∧ d < 1000 := h (rand.NewSource w.now.Unix) 1000 (by norm_num)
  have hu : ((uint32 d : Nat) : Int) = d := uint32_of_small d hd.1 hd.2
  have hlt : uint32 d < 1000 := by
    have : ((uint32 d : Nat) : Int) < 1000 := by rw [hu]; exact hd.2
    exact_mod_cast this
  have hc : c.ServerID = (uint32 d + 1001) % 2 ^ 32 := ServerID_of_draw rand cs w
  have hc2 : c.ServerID = uint32 d + 1001 := by
    rw [hc]; exact Nat.mod_eq_of_lt (by omega)
  refine ⟨hd, ?_, hu, by omega, by omega, by omega, by omega⟩
  rw [hc2]; push_cast; rw [hu]; ring

/-- Witness of C1 on the sample generator, at a clock reading before the epoch
(seed `-3`, draw `805`). -/
theorem NewDefaultConfig_ServerID_range_witness :
    sampleRand.IntnInRange ∧
      (sampleRand.Intn (sampleRand.NewSource (-3)) 1000).1 = 805 ∧
      1001 ≤ (NewDefaultConfig sampleRand "utf8"
          { now := { sec := -3, nsec := 0 }, globalRand := 0 }).1.ServerID ∧
      (NewDefaultConfig sampleRand "utf8"
          { now := { sec := -3, nsec := 0 }, globalRand := 0 }).1.ServerID < 2001 :=
  ⟨sampleRand_IntnInRange, by decide,
    (NewDefaultConfig_ServerID_range sampleRand "utf8"
      { now := { sec := -3, nsec := 0 }, globalRand := 0 } sampleRand_IntnInRange).2.2.2.2.1,
    (NewDefaultConfig_ServerID_range sampleRand "utf8"
      { now := { sec := -3, nsec := 0 }, globalRand := 0 } sampleRand_IntnInRange).2.2.2.2.2.1⟩

/-- C2: for every generator, charset constant and world, the default Config has
Addr "127.0.0.1:3306", User "root", Password "", Charset equal to the
DEFAULT_CHARSET constant, Flavor "mysql", Dump.ExecutionPath "mysqldump",
Dump.DiscardErr true, Dump.SkipMasterData false and Dump.GtidPurged "none";
the values do not vary with the clock or with the draw. -/
theorem NewDefaultConfig_literal_fields {σ : Type} (rand : Rand σ) (cs : String)
    (w : World σ) :
    (NewDefaultConfig rand cs w).1.Addr = "127.0.0.1:3306" ∧
      (NewDefaultConfig rand cs w).1.User = "root" ∧
      (NewDefaultConfig rand cs w).1.Password = "" ∧
      (NewDefaultConfig rand cs w).1.Charset = cs ∧
      (NewDefaultConfig rand cs w).1.Flavor = "mysql" ∧
      (NewDefaultConfig rand cs w).1.Dump.ExecutionPath = "mysqldump" ∧
      (NewDefaultConfig rand cs w).1.Dump.DiscardErr = true ∧
      (NewDefaultConfig rand cs w).1.Dump.SkipMasterData = false ∧
      (NewDefaultConfig rand cs w).1.Dump.GtidPurged = "none" :=
  ⟨rfl, rfl, rfl, rfl, rfl, rfl, rfl, rfl, rfl⟩

/-- C3: for every generator, charset constant and world, each field of the
default Config that NewDefaultConfig does not assign holds the zero value of
its type. -/
theorem NewDefaultConfig_unset_fields_zero {σ : Type} (rand : Rand σ) (cs : String)
    (w : World σ) :
    (NewDefaultConfig rand cs w).1.HeartbeatPeriod = 0 ∧
      (NewDefaultConfig rand cs w).1.ReadTimeout = 0 ∧
      (NewDefaultConfig rand cs w).1.IncludeTableRegex = [] ∧
      (NewDefaultConfig rand cs w).1.ExcludeTableRegex = [] ∧
      (NewDefaultConfig rand cs w).1.MaxReconnectAttempts = 0 ∧
      (NewDefaultConfig rand cs w).1.SemiSyncEnabled = false ∧
      (NewDefaultConfig rand cs w).1.DiscardNoMetaRowEvent = false ∧
      (NewDefaultConfig rand cs w).1.UseDecimal = false ∧
      (NewDefaultConfig rand cs w).1.ParseTime = false ∧
      (NewDefaultConfig rand cs w).1.TimestampStringLocation = none ∧
      (NewDefaultConfig rand cs w).1.Dump.Tables = [] ∧
      (NewDefaultConfig rand cs w).1.Dump.Databases = [] ∧
      (NewDefaultConfig rand cs w).1.Dump.IgnoreTables = [] ∧
      (NewDefaultConfig rand cs w).1.Dump.ExtraOptions = [] ∧
      (NewDefaultConfig rand cs w).1.Dump.TableDB = "" ∧
      (NewDefaultConfig rand cs w).1.Dump.Where = "" ∧
      (NewDefaultConfig rand cs w).1.Dump.Protocol = "" ∧
      (NewDefaultConfig rand cs w).1.Dump.MaxAllowedPacketMB = 0 :=
  ⟨rfl, rfl, rfl, rfl, rfl, rfl, rfl, rfl, rfl, rfl, rfl, rfl, rfl, rfl, rfl, rfl, rfl, rfl⟩

/-- C9: two invocations whose clock readings fall in the same Unix second
return equal Configs (whatever the nanoseconds and the state of the shared
random source), in particular the same ServerID. -/
theorem NewDefaultConfig_same_second {σ : Type} (rand : Rand σ) (cs : String)
    (w₁ w₂ : World σ) (h : w₁.now.Unix = w₂.now.Unix) :
    (NewDefaultConfig rand cs w₁).1 = (NewDefaultConfig rand cs w₂).1 ∧
      (NewDefaultConfig rand cs w₁).1.ServerID = (NewDefaultConfig rand cs w₂).1.ServerID := by
  have key : (NewDefaultConfig rand cs w₁).1 = (NewDefaultConfig rand cs w₂).1 := by
    simp only [NewDefaultConfig, h]
  exact ⟨key, by rw [key]⟩

/-- Witness of C9: the two sample worlds differ in nanoseconds and in the
shared random state but share the clock second. -/
theorem NewDefaultConfig_same_second_witness :
    sampleWorld.now ≠ sampleWorldLater.now ∧
      sampleWorld.now.Unix = sampleWorldLater.now.Unix ∧
      (NewDefaultConfig sampleRand "utf8" sampleWorld).1.ServerID =
        (NewDefaultConfig sampleRand "utf8" sampleWorldLater).1.ServerID :=
  ⟨by decide, rfl,
    (NewDefaultConfig_same_second sampleRand "utf8" sampleWorld sampleWorldLater rfl).2⟩

/-- Counterexample to C10: on the sample generator the shared random state is
handed back as received and the Config does not depend on it, so the invocation
does not touch the shared source. -/
theorem NewDefaultConfig_touches_global_rand_false :
    (NewDefaultConfig sampleRand "utf8" sampleWorld).2.globalRand = 42 ∧
      (NewDefaultConfig sampleRand "utf8" { sampleWorld with globalRand := 7 }).1 =
        (NewDefaultConfig sampleRand "utf8" sampleWorld).1 ∧
      ¬ TouchesGlobalRand (NewDefaultConfig sampleRand "utf8") := by
  refine ⟨rfl, rfl, ?_⟩
  rintro ⟨w, h | ⟨g, h⟩⟩
  · exact h rfl
  · exact h rfl

/-- C10 (amended): NewDefaultConfig does not touch the shared random source. It
hands the world back unchanged, its result does not depend on the shared
random state, and the ServerID draw is taken from a generator that the call
creates for itself from the Unix second of the clock reading. -/
theorem NewDefaultConfig_private_source {σ : Type} (rand : Rand σ) (cs : String) :
    ¬ TouchesGlobalRand (NewDefaultConfig rand cs) ∧
      ∀ w : World σ, (NewDefaultConfig rand cs w).2 = w ∧
        (NewDefaultConfig rand cs w).1.ServerID =
          (uint32 (rand.Intn (rand.NewSource w.now.Unix) 1000).1 + 1001) % 2 ^ 32 := by
  refine ⟨?_, fun w => ⟨rfl, rfl⟩⟩
  rintro ⟨w, h | ⟨g, h⟩⟩
  · exact h rfl
  · exact h rfl

/-! ## Properties of the loaders -/

theorem NewConfig_of_decode_error (Decode : Decoder) (data : String) (c : Config)
    (e : DecodeError) (h : Decode data Config.zero = (c, some e)) :
    NewConfig Decode data = (none, some (Error.trace (Error.decode e))) := by
  simp [NewConfig, h, errors.Trace]

theorem NewConfig_of_decode_ok (Decode : Decoder) (data : String) (c : Config)
    (h : Decode data Config.zero = (c, none)) :
    NewConfig Decode data = (some c, none) := by
  simp [NewConfig, h]

theorem NewConfig_cases (Decode : Decoder) (data : String) :
    (∃ e, (Decode data Config.zero).2 = some e ∧
        NewConfig Decode data = (none, some (Error.trace (Error.decode e)))) ∨
      ((Decode data Config.zero).2 = none ∧
        NewConfig Decode data = (some (Decode data Config.zero).1, none)) := by
  rcases hd : Decode data Config.zero with ⟨c, _ | e⟩
  · exact Or.inr ⟨rfl, NewConfig_of_decode_ok Decode data c hd⟩
  · exact Or.inl ⟨e, rfl, NewConfig_of_decode_error Decode data c e hd⟩

theorem NewConfig_success (Decode : Decoder) (data : String) (c : Config)
    (h : NewConfig Decode data = (some c, none)) :
    Decode data Config.zero = (c, none) := by
  rcases NewConfig_cases Decode data with ⟨e, _, h2⟩ | ⟨h1, h2⟩
  · rw [h2] at h; simp at h
  · rw [h2] at h
    have hc : (Decode data Config.zero).1 = c := by simpa using h
    exact Prod.ext hc h1

/-- C4: NewConfig returns exactly one of a Config and an error. When the decoder
reports an error, whatever it has written, the result is no Config and the
decoder error wrapped by errors.Trace; when the decoder reports none, the result
is the decoded Config and no error. -/
theorem NewConfig_total_or_nothing (Decode : Decoder) (data : String) :
    (((NewConfig Decode data).1.isSome = true ∧ (NewConfig Decode data).2 = none) ∨
        ((NewConfig Decode data).1 = none ∧ (NewConfig Decode data).2.isSome = true)) ∧
      (∀ (c : Config) (e : DecodeError), Decode data Config.zero = (c, some e) →
        NewConfig Decode data = (none, some (Error.trace (Error.decode e))) ∧
          errors.Cause (Error.trace (Error.decode e)) = Error.decode e) ∧
      (∀ c : Config, Decode data Config.zero = (c, none) →
        NewConfig Decode data = (some c, none)) := by
  refine ⟨?_, fun c e h => ⟨NewConfig_of_decode_error Decode data c e h, rfl⟩,
    fun c h => NewConfig_of_decode_ok Decode data c h⟩
  rcases NewConfig_cases Decode data with ⟨e, _, h2⟩ | ⟨_, h2⟩
  · exact Or.inr (by rw [h2]; exact ⟨rfl, rfl⟩)
  · exact Or.inl (by rw [h2]; exact ⟨rfl, rfl⟩)

/-- Witness of C4: the sample decoder has written Addr before it meets the
string given for server_id; NewConfig returns no Config and the wrapped error. -/
theorem NewConfig_total_or_nothing_witness :
    sampleDecode "addr = \"db:3306\"\nserver_id = \"abc\"" Config.zero =
        ({ Config.zero with Addr := "db:3306" }, some { msg := "type mismatch for server_id" }) ∧
      NewConfig sampleDecode "addr = \"db:3306\"\nserver_id = \"abc\"" =
        (none, some (Error.trace (Error.decode { msg := "type mismatch for server_id" }))) :=
  ⟨by decide,
    ((NewConfig_total_or_nothing sampleDecode "addr = \"db:3306\"\nserver_id = \"abc\"").2.1
      { Config.zero with Addr := "db:3306" } { msg := "type mismatch for server_id" }
      (by decide)).1⟩

theorem NewConfigWithFile_of_read_error (ReadFile : FileReader) (Decode : Decoder)
    (name : String) (e : ReadError) (h : ReadFile name = Except.error e) :
    NewConfigWithFile ReadFile Decode name = (none, some (Error.trace (Error.read e))) := by
  simp [NewConfigWithFile, h, errors.Trace]

theorem NewConfigWithFile_of_read_ok (ReadFile : FileReader) (Decode : Decoder)
    (name : String) (b : ByteSlice) (h : ReadFile name = Except.ok b) :
    NewConfigWithFile ReadFile Decode name = NewConfig Decode (string b) := by
  simp [NewConfigWithFile, h]

theorem NewConfig_error_not_read (Decode : Decoder) (data : String) (err : Error)
    (h : (NewConfig Decode data).2 = some err) : err.IsReadFailure = false := by
  rcases NewConfig_cases Decode data with ⟨e, _, h2⟩ | ⟨_, h2⟩
  · rw [h2] at h
    have : Error.trace (Error.decode e) = err := by simpa using h
    subst this
    rfl
  · rw [h2] at h; simp at h

/-- C5: when the file is read completely, yielding b, NewConfigWithFile returns
exactly the pair that NewConfig returns on string(b). -/
theorem NewConfigWithFile_eq_NewConfig (ReadFile : FileReader) (Decode : Decoder)
    (name : String) (b : ByteSlice) (h : ReadFile name = Except.ok b) :
    NewConfigWithFile ReadFile Decode name = NewConfig Decode (string b) :=
  NewConfigWithFile_of_read_ok ReadFile Decode name b h

/-- Witness of C5: a readable file whose document fails to decode; the error is
the one NewConfig returns, wrapped once. -/
theorem NewConfigWithFile_eq_NewConfig_witness :
    sampleReadFile "/etc/canal/bad.toml" =
        Except.ok "addr = \"db:3306\"\nserver_id = \"abc\"" ∧
      NewConfigWithFile sampleReadFile sampleDecode "/etc/canal/bad.toml" =
        NewConfig sampleDecode (string "addr = \"db:3306\"\nserver_id = \"abc\"") ∧
      NewConfig sampleDecode (string "addr = \"db:3306\"\nserver_id = \"abc\"") =
        (none, some (Error.trace (Error.decode { msg := "type mismatch for server_id" }))) :=
  ⟨rfl,
    NewConfigWithFile_eq_NewConfig sampleReadFile sampleDecode "/etc/canal/bad.toml"
      "addr = \"db:3306\"\nserver_id = \"abc\"" rfl,
    by decide⟩

/-- C6: when the read fails with error e, NewConfigWithFile returns no Config
and errors.Trace of e, whose cause is e: a read failure and not a decode
failure, the same for every decoder. Conversely, an error whose cause is a read
error is returned only when the read failed. -/
theorem NewConfigWithFile_read_failure (ReadFile : FileReader) (Decode : Decoder)
    (name : String) :
    (∀ e : ReadError, ReadFile name = Except.error e →
        NewConfigWithFile ReadFile Decode name = (none, some (Error.trace (Error.read e))) ∧
          errors.Cause (Error.trace (Error.read e)) = Error.read e ∧
          (Error.trace (Error.read e)).IsReadFailure = true ∧
          (Error.trace (Error.read e)).IsDecodeFailure = false ∧
          ∀ Decode2 : Decoder,
            NewConfigWithFile ReadFile Decode2 name = NewConfigWithFile ReadFile Decode name) ∧
      (∀ err : Error, (NewConfigWithFile ReadFile Decode name).2 = some err →
        err.IsReadFailure = true → ∃ e : ReadError, ReadFile name = Except.error e) := by
  constructor
  · intro e h
    refine ⟨NewConfigWithFile_of_read_error ReadFile Decode name e h, rfl, rfl, rfl, ?_⟩
    intro Decode2
    rw [NewConfigWithFile_of_read_error ReadFile Decode2 name e h,
      NewConfigWithFile_of_read_error ReadFile Decode name e h]
  · intro err herr hread
    rcases hr : ReadFile name with e | b
    · exact ⟨e, rfl⟩
    · rw [NewConfigWithFile_of_read_ok ReadFile Decode name b hr] at herr
      have := NewConfig_error_not_read Decode (string b) err herr
      rw [this] at hread
      exact absurd hread (by decide)

/-- Witness of C6: a path that the sample file system does not hold. -/
theorem NewConfigWithFile_read_failure_witness :
    sampleReadFile "/nowhere.toml" =
        Except.error { msg := "open /nowhere.toml: no such file or directory" } ∧
      NewConfigWithFile sampleReadFile sampleDecode "/nowhere.toml" =
        (none, some (Error.trace (Error.read
          { msg := "open /nowhere.toml: no such file or directory" }))) :=
  ⟨rfl,
    ((NewConfigWithFile_read_failure sampleReadFile sampleDecode "/nowhere.toml").1
      { msg := "open /nowhere.toml: no such file or directory" } rfl).1⟩

/-- C7: NewConfig decodes onto the zero Config. A Config it returns is the
decoder's output on the zero Config, so every field that the decoder leaves as
it found it (the field of a key absent from the document) holds its zero value.
When the decoder writes only Addr for the document with the single key addr,
the result has that Addr, Dump.ExecutionPath "" (not "mysqldump"),
Dump.DiscardErr false and ServerID 0; when the decoder accepts the empty
document and writes nothing, the result is the zero Config. -/
theorem NewConfig_absent_fields_zero (Decode : Decoder) :
    (∀ (data : String) (c : Config), NewConfig Decode data = (some c, none) →
        c = (Decode data Config.zero).1 ∧
          ∀ (α : Type) (field : Config → α),
            (∀ c₀ : Config, field (Decode data c₀).1 = field c₀) →
              field c = field Config.zero) ∧
      ((∀ c₀ : Config, Decode "addr = \"10.0.0.5:3306\"" c₀ =
            ({ c₀ with Addr := "10.0.0.5:3306" }, none)) →
        NewConfig Decode "addr = \"10.0.0.5:3306\"" =
            (some { Config.zero with Addr := "10.0.0.5:3306" }, none) ∧
          ({ Config.zero with Addr := "10.0.0.5:3306" } : Config).Addr = "10.0.0.5:3306" ∧
          ({ Config.zero with Addr := "10.0.0.5:3306" } : Config).Dump.ExecutionPath = "" ∧
          ({ Config.zero with Addr := "10.0.0.5:3306" } : Config).Dump.ExecutionPath
            ≠ "mysqldump" ∧
          ({ Config.zero with Addr := "10.0.0.5:3306" } : Config).Dump.DiscardErr = false ∧
          ({ Config.zero with Addr := "10.0.0.5:3306" } : Config).ServerID = 0) ∧
      ((∀ c₀ : Config, Decode "" c₀ = (c₀, none)) →
        NewConfig Decode "" = (some Config.zero, none)) := by
  refine ⟨?_, ?_, ?_⟩
  · intro data c h
    have hd := NewConfig_success Decode data c h
    have hc : c = (Decode data Config.zero).1 := by rw [hd]
    refine ⟨hc, fun α field hframe => ?_⟩
    rw [hc]
    exact hframe Config.zero
  · intro h
    exact ⟨NewConfig_of_decode_ok Decode _ _ (h Config.zero), rfl, rfl, by decide, rfl, rfl⟩
  · intro h
    exact NewConfig_of_decode_ok Decode _ _ (h Config.zero)

/-- Witness of C7 on the sample decoder: the document with the single key addr
is accepted, the decoder leaves ServerID and Dump as it found them, and they
come out zero. -/
theorem NewConfig_absent_fields_zero_witness :
    NewConfig sampleDecode "addr = \"10.0.0.5:3306\"" =
        (some { Config.zero with Addr := "10.0.0.5:3306" }, none) ∧
      (∀ c₀ : Config, (sampleDecode "addr = \"10.0.0.5:3306\"" c₀).1.Dump = c₀.Dump) ∧
      ({ Config.zero with Addr := "10.0.0.5:3306" } : Config).Dump = Config.zero.Dump ∧
      NewConfig sampleDecode "" = (some Config.zero, none) :=
  ⟨((NewConfig_absent_fields_zero sampleDecode).2.1 (fun _ => rfl)).1,
    fun _ => rfl,
    ((NewConfig_absent_fields_zero sampleDecode).1 "addr = \"10.0.0.5:3306\""
      { Config.zero with Addr := "10.0.0.5:3306" } (by decide)).2 DumpConfig Config.Dump
      (fun _ => rfl),
    (NewConfig_absent_fields_zero sampleDecode).2.2 (fun _ => rfl)⟩

/-- Counterexample to C8: the document whose dump table sets both tables and
dbs is accepted, from text and from a file alike, and the returned Config
carries both lists non-empty. -/
theorem dump_selection_exclusive_false :
    NewConfig sampleDecode "[dump]\ntables = [\"t1\"]\ndbs = [\"d1\"]" =
        (some { Config.zero with
          Dump := { DumpConfig.zero with Tables := ["t1"], Databases := ["d1"] } }, none) ∧
      NewConfigWithFile sampleReadFile sampleDecode "/etc/canal/both.toml" =
        NewConfig sampleDecode "[dump]\ntables = [\"t1\"]\ndbs = [\"d1\"]" ∧
      ¬ (∀ c : Config,
          NewConfig sampleDecode "[dump]\ntables = [\"t1\"]\ndbs = [\"d1\"]" = (some c, none) →
            ¬ (c.Dump.Tables ≠ [] ∧ c.Dump.Databases ≠ [])) := by
  refine ⟨by decide, rfl, fun h => ?_⟩
  exact h { Config.zero with
      Dump := { DumpConfig.zero with Tables := ["t1"], Databases := ["d1"] } }
    (by decide) ⟨by decide, by decide⟩

/-- C8 (amended): a Config from NewDefaultConfig has Dump.Tables and
Dump.Databases both empty. NewConfig and NewConfigWithFile make no exclusivity
check: a Config they return carries Dump.Tables and Dump.Databases exactly as
the decoder wrote them onto the zero Config, both non-empty when the decoder
wrote both. -/
theorem dump_selection_as_decoded (ReadFile : FileReader) (Decode : Decoder) :
    (∀ (σ : Type) (rand : Rand σ) (cs : String) (w : World σ),
        (NewDefaultConfig rand cs w).1.Dump.Tables = [] ∧
          (NewDefaultConfig rand cs w).1.Dump.Databases = []) ∧
      (∀ (data : String) (c : Config), NewConfig Decode data = (some c, none) →
        c.Dump.Tables = (Decode data Config.zero).1.Dump.Tables ∧
          c.Dump.Databases = (Decode data Config.zero).1.Dump.Databases) ∧
      (∀ (name : String) (c : Config),
        NewConfigWithFile ReadFile Decode name = (some c, none) →
          ∃ b : ByteSlice, ReadFile name = Except.ok b ∧
            c.Dump.Tables = (Decode (string b) Config.zero).1.Dump.Tables ∧
            c.Dump.Databases = (Decode (string b) Config.zero).1.Dump.Databases) := by
  refine ⟨fun σ rand cs w => ⟨rfl, rfl⟩, ?_, ?_⟩
  · intro data c h
    rw [NewConfig_success Decode data c h]
    exact ⟨rfl, rfl⟩
  · intro name c h
    rcases hr : ReadFile name with e | b
    · rw [NewConfigWithFile_of_read_error ReadFile Decode name e hr] at h
      simp at h
    · rw [NewConfigWithFile_of_read_ok ReadFile Decode name b hr] at h
      refine ⟨b, rfl, ?_⟩
      rw [NewConfig_success Decode (string b) c h]
      exact ⟨rfl, rfl⟩

/-- Witness of C8 (amended): the file holding the document that sets both
lists. -/
theorem dump_selection_as_decoded_witness :
    NewConfigWithFile sampleReadFile sampleDecode "/etc/canal/both.toml" =
        (some { Config.zero with
          Dump := { DumpConfig.zero with Tables := ["t1"], Databases := ["d1"] } }, none) ∧
      ∃ b : ByteSlice, sampleReadFile "/etc/canal/both.toml" = Except.ok b ∧
        ["t1"] = (sampleDecode (string b) Config.zero).1.Dump.Tables ∧
        ["d1"] = (sampleDecode (string b) Config.zero).1.Dump.Databases :=
  ⟨by decide,
    (dump_selection_as_decoded sampleReadFile sampleDecode).2.2 "/etc/canal/both.toml"
      { Config.zero with
        Dump := { DumpConfig.zero with Tables := ["t1"], Databases := ["d1"] } } (by decide)⟩

end canal
